import Mathlib

/-!
Shallow embedding of the water_remind_local repository (config.py,
telegram_notifier.py, scheduler.py) and proofs about its behaviour.

The Telegram notifier (`telegram_notifier.py`) is embedded as a pure
function over an oracle `outcomes : Nat → AttemptOutcome` that yields the
result of the k-th HTTP POST the send loop issues.  The function returns
the result of `send_message` together with the trace of `time.sleep`
calls and the number of requests issued, so that claims about sleeps and
attempt counts can be stated.
-/

namespace WaterRemind

/-- Value of a `Retry-After` response header as seen by
`int(retry_after)` in `_handle_http_error`: either a string parsing to a
non-negative integer, or anything else (for which `int(...)` or the
subsequent `time.sleep` raises `ValueError`). -/
inductive RAHdr
  | num (n : Nat)
  | malformed
  deriving DecidableEq

/-- Result of `response.json()` followed by `result.get("ok")` in
`_send_request`: either the body parsed and the `ok` field is truthy or
not, or the body was not valid JSON (requests raises a
`RequestException` subclass). -/
inductive BodyResult
  | okField (b : Bool)
  | invalidJson
  deriving DecidableEq

/-- An HTTP response: status code, optional `Retry-After` header, body. -/
structure HttpResponse where
  status : Nat
  retryAfter : Option RAHdr
  body : BodyResult
  deriving DecidableEq

/-- Outcome of one `requests.post` call in `_send_request`:
a timeout, a connection error, another `RequestException`, or a
response. -/
inductive AttemptOutcome
  | timeout
  | connError
  | reqError
  | resp (r : HttpResponse)
  deriving DecidableEq

/-- One `time.sleep` call performed by the send loop: either the
rate-limit wait inside `_handle_http_error` or the exponential backoff
wait in `_wait_before_retry`. -/
inductive SleepEvent
  | rateLimit (secs : Nat)
  | backoff (secs : Nat)
  deriving DecidableEq

/-- Result of `send_message`: a returned boolean, or an exception that
escaped the method (the `ValueError` from `int(retry_after)` /
`time.sleep` on a malformed `Retry-After`). -/
inductive SendResult
  | ok (b : Bool)
  | uncaught
  deriving DecidableEq

/-- Observable outcome of `_handle_http_error`: returned a boolean
without sleeping, slept `secs` seconds and returned `True` (the 429
branch), or raised `ValueError`. -/
inductive HandleOutcome
  | ret (b : Bool)
  | rateLimited (secs : Nat)
  | valueError
  deriving DecidableEq

/-- Embedding of `TelegramNotifier._handle_http_error`
(telegram_notifier.py lines 104-132): 429 sleeps the `Retry-After` hint
(default 5) and returns `True`; 401 and 400 return `False`; any other
status returns `attempt < max_retries - 1`. -/
def handleHttpError (status : Nat) (retryAfter : Option RAHdr)
    (attempt : Nat) (maxRetries : Int) : HandleOutcome :=
  if status = 429 then
    match retryAfter with
    | none => .rateLimited 5
    | some (.num n) => .rateLimited n
    | some .malformed => .valueError
  else if status = 401 then .ret false
  else if status = 400 then .ret false
  else .ret (decide ((attempt : Int) < maxRetries - 1))

/-- Embedding of `TelegramNotifier._wait_before_retry`
(telegram_notifier.py lines 134-139): sleeps `2 ** attempt` seconds when
`attempt < max_retries - 1`, otherwise does nothing.  Returns the slept
duration if any. -/
def waitBeforeRetry (attempt : Nat) (maxRetries : Int) : Option Nat :=
  if (attempt : Int) < maxRetries - 1 then some (2 ^ attempt) else none

/-- The `time.sleep` events produced by one `_wait_before_retry` call. -/
def backoffSleeps (attempt : Nat) (maxRetries : Int) : List SleepEvent :=
  match waitBeforeRetry attempt maxRetries with
  | some w => [.backoff w]
  | none => []

/-- Embedding of `requests.Response.raise_for_status`: raises
`HTTPError` exactly when `400 <= status_code < 600`. -/
def raisesForStatus (status : Nat) : Bool :=
  400 ≤ status && status ≤ 599

/-- What one iteration of the `send_message` loop does after its
`requests.post` call produced `out`: either `return` from
`send_message` (with the sleeps performed inside the iteration body
before returning) or fall through to `_wait_before_retry`. -/
inductive StepRes
  | sreturn (r : SendResult) (sleeps : List SleepEvent)
  | scont (sleeps : List SleepEvent)
  deriving DecidableEq

/-- One iteration body of the `send_message` retry loop
(telegram_notifier.py lines 62-79), excluding the trailing
`_wait_before_retry` call: `_send_request` plus the `except` clauses.
Timeouts, connection errors and other `RequestException`s are logged
and fall through; an HTTP error status (400-599) goes to
`_handle_http_error`, whose `False` return makes `send_message` return
`False`; a non-error status with truthy `ok` returns `True`; a
non-error status with falsy `ok` or an invalid JSON body falls
through. -/
def sendAttemptStep (out : AttemptOutcome) (attempt : Nat)
    (maxRetries : Int) : StepRes :=
  match out with
  | .timeout => .scont []
  | .connError => .scont []
  | .reqError => .scont []
  | .resp r =>
    if raisesForStatus r.status then
      match handleHttpError r.status r.retryAfter attempt maxRetries with
      | .ret false => .sreturn (.ok false) []
      | .ret true => .scont []
      | .rateLimited s => .scont [.rateLimit s]
      | .valueError => .sreturn .uncaught []
    else
      match r.body with
      | .invalidJson => .scont []
      | .okField true => .sreturn (.ok true) []
      | .okField false => .scont []

/-- The `send_message` loop from attempt index `attempt` with `fuel`
iterations left (`fuel` plays the role of the remaining length of
`range(max_retries)`).  Returns the result, the list of `time.sleep`
events in order, and the number of requests issued. -/
def sendMessageFrom (outcomes : Nat → AttemptOutcome) (maxRetries : Int) :
    Nat → Nat → SendResult × List SleepEvent × Nat
  | _, 0 => (.ok false, [], 0)
  | attempt, fuel + 1 =>
    match sendAttemptStep (outcomes attempt) attempt maxRetries with
    | .sreturn r s => (r, s, 1)
    | .scont s =>
      let rest := sendMessageFrom outcomes maxRetries (attempt + 1) fuel
      (rest.1, s ++ backoffSleeps attempt maxRetries ++ rest.2.1,
       rest.2.2 + 1)

/-- Embedding of `TelegramNotifier.send_message`
(telegram_notifier.py lines 44-81): `for attempt in range(max_retries)`
runs the iteration body and, unless it returned, `_wait_before_retry`;
an exhausted loop returns `False`.  `max_retries` is an `Int` so that
non-positive arguments (empty `range`) are representable. -/
def sendMessage (outcomes : Nat → AttemptOutcome) (maxRetries : Int) :
    SendResult × List SleepEvent × Nat :=
  sendMessageFrom outcomes maxRetries 0 maxRetries.toNat

/-!
Scheduler embedding.  Instants are modelled as minutes since an
arbitrary epoch; a calendar day is `1440` minutes, `t / 1440` is the
day and `t % 1440` the time of day of instant `t`.
-/

/-- A scheduled daily job as registered by
`WaterReminderScheduler._setup_schedule` (scheduler.py lines 39-45):
the time of day it is bound to (minutes after midnight), its message,
and its next-fire instant. -/
structure SchedJob where
  atTime : Nat
  message : String
  nextRun : Nat
  deriving DecidableEq

/-- Modelled from the spec: the rescheduling step of the third-party
`schedule` library (not part of the repository sources) for a
`schedule.every().day.at(t)` job after it has just run — "reschedules
that job's next-fire instant to the same time-of-day on the following
calendar day". -/
def rescheduleAfterRun (job : SchedJob) (now : Nat) : SchedJob :=
  { job with nextRun := (now / 1440 + 1) * 1440 + job.atTime }

/-- Embedding of `WaterReminderScheduler._send_reminder`
(scheduler.py lines 47-62) together with the library rescheduling that
follows it: the reminder body only logs (success and failure branches
both just log, nothing is raised and no retry is requested), so the job
advances by `rescheduleAfterRun` regardless of `sendSuccess`. -/
def fireJob (job : SchedJob) (now : Nat) (sendSuccess : Bool) : SchedJob :=
  match sendSuccess with
  | true => rescheduleAfterRun job now
  | false => rescheduleAfterRun job now

/-- Modelled from the spec: the third-party `schedule.next_run()`
(not part of the repository sources) — "the soonest upcoming next-fire
instant across all jobs", `None` when no jobs are scheduled. -/
def scheduleNextRun : List SchedJob → Option Nat
  | [] => none
  | j :: js => some ((js.map fun x => x.nextRun).foldl Nat.min j.nextRun)

/-- Zero-padded two-digit rendering of a number, as `strftime` uses for
`%H` and `%M`. -/
def pad2 (n : Nat) : String :=
  if n < 10 then "0" ++ toString n else toString n

/-- Rendering of `next_run.strftime("%H:%M")` for an instant in
minutes. -/
def formatHM (t : Nat) : String :=
  pad2 (t % 1440 / 60) ++ ":" ++ pad2 (t % 60)

/-- Embedding of `WaterReminderScheduler.get_next_reminder`
(scheduler.py lines 68-79): formats `schedule.next_run()` when present,
otherwise the sentinel string. -/
def getNextReminder (jobs : List SchedJob) : String :=
  match scheduleNextRun jobs with
  | some t => "Next reminder at " ++ formatHM t
  | none => "No reminders scheduled"

/-!
Config embedding (config.py).
-/

/-- Python falsiness of an `Optional[str]` credential, as tested by
`if not cls.TELEGRAM_BOT_TOKEN` in `Config.validate`: `None` and the
empty string are falsy. -/
def credentialMissing : Option String → Bool
  | none => true
  | some s => s == ""

/-- Error line appended for a missing bot token (config.py line 38). -/
def botTokenMsg : String :=
  "TELEGRAM_BOT_TOKEN not set. Please add it to your .env file."

/-- Error line appended for a missing chat id (config.py line 40). -/
def chatIdMsg : String :=
  "TELEGRAM_CHAT_ID not set. Please add it to your .env file."

/-- Embedding of `Config.validate` (config.py lines 26-45): collects
one message per falsy credential, bot token first, and raises
`ValueError` with the newline-joined messages when any were collected;
otherwise returns normally. -/
def configValidate (botToken chatId : Option String) :
    Except String Unit :=
  let errors :=
    (if credentialMissing botToken then [botTokenMsg] else []) ++
    (if credentialMissing chatId then [chatIdMsg] else [])
  if errors.isEmpty then .ok () else .error (String.intercalate "\n" errors)

/-!
Concrete request-outcome oracles and predicates used by individual
claims.
-/

/-- Truth of "this attempt outcome is a 2xx response whose body has a
truthy `ok` field" (the success condition as the spec words it). -/
def is2xxOk : AttemptOutcome → Bool
  | .resp r =>
    decide (200 ≤ r.status) && decide (r.status ≤ 299) &&
      decide (r.body = BodyResult.okField true)
  | _ => false

/-- Truth of "this attempt outcome is a response the send loop treats
as a success": a status `raise_for_status` does not raise on, with a
truthy `ok` field. -/
def isSuccessOutcome : AttemptOutcome → Bool
  | .resp r =>
    !raisesForStatus r.status && decide (r.body = BodyResult.okField true)
  | _ => false

/-- Truth of "this attempt outcome is a 429 response whose
`Retry-After` header makes `int(...)` / `time.sleep` raise
`ValueError`". -/
def isMalformed429 : AttemptOutcome → Bool
  | .resp r =>
    decide (r.status = 429) && decide (r.retryAfter = some RAHdr.malformed)
  | _ => false

/-- Oracle where every attempt is rate limited with no `Retry-After`
header. -/
def c1Outcomes : Nat → AttemptOutcome :=
  fun _ => .resp ⟨429, none, .okField false⟩

/-- Oracle where every attempt is rate limited with a `Retry-After`
header that is not a non-negative integer string. -/
def c2Outcomes : Nat → AttemptOutcome :=
  fun _ => .resp ⟨429, some .malformed, .okField false⟩

/-- Oracle where every attempt is a 300 response (not an error for
`raise_for_status`, but not 2xx either) with a truthy `ok` body. -/
def c3Outcomes : Nat → AttemptOutcome :=
  fun _ => .resp ⟨300, none, .okField true⟩

/-- Oracle where every attempt is an HTTP 500 response. -/
def c6Outcomes : Nat → AttemptOutcome :=
  fun _ => .resp ⟨500, none, .okField false⟩

/-- Oracle where every attempt is an HTTP 401 response. -/
def c5Outcomes : Nat → AttemptOutcome :=
  fun _ => .resp ⟨401, none, .okField false⟩

/-- Oracle where every attempt times out. -/
def timeoutOutcomes : Nat → AttemptOutcome := fun _ => .timeout

/-- A sample scheduled job bound to 09:00 (540 minutes). -/
def sampleJob : SchedJob := ⟨540, "Good morning! Time to drink water!", 540⟩

/-!
Theorems.
-/

/-- C9: for every oracle, `send_message` with a non-positive
`max_retries` returns `False` with no request issued and no sleep:
`range(max_retries)` is empty. -/
theorem c9_nonpositive_budget (outcomes : Nat → AttemptOutcome)
    (maxRetries : Int) (h : maxRetries ≤ 0) :
    sendMessage outcomes maxRetries = (SendResult.ok false, [], 0) := by
  unfold sendMessage
  rw [Int.toNat_of_nonpos h]
  rfl

/-- C9 witness at `max_retries = -2`. -/
theorem c9_nonpositive_budget_witness :
    sendMessage timeoutOutcomes (-2) = (SendResult.ok false, [], 0) :=
  c9_nonpositive_budget timeoutOutcomes (-2) (by decide)

/-- C5: when the first attempt yields an HTTP 401 or 400 response and
at least one attempt is allowed, `send_message` returns `False` after
exactly one request with zero sleeps. -/
theorem c5_fatal_status (outcomes : Nat → AttemptOutcome)
    (maxRetries : Int) (r : HttpResponse)
    (hout : outcomes 0 = .resp r) (hst : r.status = 401 ∨ r.status = 400)
    (hmr : 1 ≤ maxRetries) :
    sendMessage outcomes maxRetries = (SendResult.ok false, [], 1) := by
  obtain ⟨m, hm⟩ : ∃ m, maxRetries.toNat = m + 1 :=
    ⟨maxRetries.toNat - 1, by omega⟩
  unfold sendMessage
  rw [hm]
  rcases hst with h | h <;>
    simp [sendMessageFrom, sendAttemptStep, hout, raisesForStatus,
      handleHttpError, h]

/-- C5 witness: a 401 first attempt with the default budget of 3. -/
theorem c5_fatal_status_witness :
    sendMessage c5Outcomes 3 = (SendResult.ok false, [], 1) :=
  c5_fatal_status c5Outcomes 3 ⟨401, none, .okField false⟩ rfl
    (Or.inl rfl) (by decide)

/-- C6: with `max_retries = 3` and every attempt an HTTP 500,
`send_message` returns `False` after backoff sleeps of exactly 1 and 2
seconds (none after the final attempt); and in general any error
status other than 429, 401 and 400 makes the iteration fall through to
a retry exactly when the attempt is not the final allowed one,
returning `False` otherwise. -/
theorem c6_http500_exhaustion :
    sendMessage c6Outcomes 3 =
      (SendResult.ok false, [SleepEvent.backoff 1, SleepEvent.backoff 2], 3) ∧
    ∀ (st : Nat) (ra : Option RAHdr) (b : BodyResult) (attempt : Nat)
      (mr : Int), 400 ≤ st → st ≤ 599 → st ≠ 429 → st ≠ 401 → st ≠ 400 →
      sendAttemptStep (.resp ⟨st, ra, b⟩) attempt mr =
        if (attempt : Int) < mr - 1 then .scont []
        else .sreturn (.ok false) [] := by
  constructor
  · rfl
  · intro st ra b attempt mr h1 h2 h3 h4 h5
    have hrs : raisesForStatus st = true := by
      simp [raisesForStatus]; omega
    by_cases hlt : (attempt : Int) < mr - 1 <;>
      simp [sendAttemptStep, hrs, handleHttpError, h3, h4, h5, hlt]

/-- C6 witness: a 500 on the final allowed attempt aborts with
`False`. -/
theorem c6_http500_exhaustion_witness :
    sendAttemptStep (.resp ⟨500, none, .okField false⟩) 2 3 =
      (if (2 : Int) < 3 - 1 then .scont [] else .sreturn (.ok false) []) :=
  c6_http500_exhaustion.2 500 none (.okField false) 2 3 (by decide)
    (by decide) (by decide) (by decide) (by decide)

/-- C4: when the iteration body of attempt `k` falls through to
`_wait_before_retry`, the sleep between attempt `k` and attempt `k + 1`
is exactly `2 ^ k` seconds when further attempts remain, and there is
no backoff sleep after the final attempt. -/
theorem c4_backoff_schedule (outcomes : Nat → AttemptOutcome)
    (maxRetries : Int) (k fuel : Nat) (s : List SleepEvent)
    (hcont : sendAttemptStep (outcomes k) k maxRetries = .scont s) :
    ((k : Int) < maxRetries - 1 →
      sendMessageFrom outcomes maxRetries k (fuel + 1) =
        ((sendMessageFrom outcomes maxRetries (k + 1) fuel).1,
         s ++ SleepEvent.backoff (2 ^ k) ::
           (sendMessageFrom outcomes maxRetries (k + 1) fuel).2.1,
         (sendMessageFrom outcomes maxRetries (k + 1) fuel).2.2 + 1)) ∧
    (¬ (k : Int) < maxRetries - 1 →
      sendMessageFrom outcomes maxRetries k (fuel + 1) =
        ((sendMessageFrom outcomes maxRetries (k + 1) fuel).1,
         s ++ (sendMessageFrom outcomes maxRetries (k + 1) fuel).2.1,
         (sendMessageFrom outcomes maxRetries (k + 1) fuel).2.2 + 1)) := by
  constructor <;> intro h <;>
    simp [sendMessageFrom, hcont, backoffSleeps, waitBeforeRetry, h]

/-- C4 witness: after a timed-out attempt 0 of 3 the backoff sleep is
`2 ^ 0 = 1` second. -/
theorem c4_backoff_schedule_witness :
    sendMessageFrom timeoutOutcomes 3 0 (1 + 1) =
      ((sendMessageFrom timeoutOutcomes 3 1 1).1,
       [] ++ SleepEvent.backoff (2 ^ 0) ::
         (sendMessageFrom timeoutOutcomes 3 1 1).2.1,
       (sendMessageFrom timeoutOutcomes 3 1 1).2.2 + 1) :=
  (c4_backoff_schedule timeoutOutcomes 3 0 1 [] rfl).1 (by decide)

/-- C7: after a job fires at instant `now`, its next-fire instant is
strictly later than `now`, keeps the job's time of day, and lies on
the following calendar day; the rescheduling is the same whether the
delivery succeeded or failed. -/
theorem c7_job_advances (job : SchedJob) (now : Nat) (success : Bool)
    (h : job.atTime < 1440) :
    now < (fireJob job now success).nextRun ∧
    (fireJob job now success).nextRun % 1440 = job.atTime ∧
    (fireJob job now success).nextRun / 1440 = now / 1440 + 1 ∧
    fireJob job now success = fireJob job now false := by
  cases success <;>
    refine ⟨?_, ?_, ?_, rfl⟩ <;>
      simp [fireJob, rescheduleAfterRun] <;> omega

/-- C7 witness: the 09:00 job firing at 10:00 on day 0. -/
theorem c7_job_advances_witness :
    600 < (fireJob sampleJob 600 false).nextRun ∧
    (fireJob sampleJob 600 false).nextRun % 1440 = sampleJob.atTime ∧
    (fireJob sampleJob 600 false).nextRun / 1440 = 600 / 1440 + 1 ∧
    fireJob sampleJob 600 false = fireJob sampleJob 600 false :=
  c7_job_advances sampleJob 600 false (by decide)

/-- C10: `Config.validate` treats an empty-string credential exactly
like an absent one; it returns normally when both credentials are
present, and raises `ValueError` whose message is the newline-joined
list of the applicable missing-setting descriptions (bot token first)
when either is missing. -/
theorem c10_validate (bt ci : Option String) :
    (configValidate none ci = configValidate (some "") ci) ∧
    (configValidate bt none = configValidate bt (some "")) ∧
    (credentialMissing bt = false → credentialMissing ci = false →
      configValidate bt ci = .ok ()) ∧
    (credentialMissing bt = true → credentialMissing ci = true →
      configValidate bt ci = .error (botTokenMsg ++ "\n" ++ chatIdMsg)) ∧
    (credentialMissing bt = true → credentialMissing ci = false →
      configValidate bt ci = .error botTokenMsg) ∧
    (credentialMissing bt = false → credentialMissing ci = true →
      configValidate bt ci = .error chatIdMsg) := by
  refine ⟨rfl, rfl, ?_, ?_, ?_, ?_⟩ <;>
    intro h1 h2 <;>
      simp [configValidate, h1, h2, String.intercalate] <;> rfl

/-- C10 witness: a present token with an empty chat id raises with the
chat-id message alone. -/
theorem c10_validate_witness :
    configValidate (some "tok") (some "") = .error chatIdMsg :=
  (c10_validate (some "tok") (some "")).2.2.2.2.2 rfl rfl

/-!
Helper lemmas about single iterations of the send loop.
-/

/-- A successful outcome makes the iteration body return `True` with no
sleeps. -/
theorem step_of_success (out : AttemptOutcome) (a : Nat) (mr : Int)
    (h : isSuccessOutcome out = true) :
    sendAttemptStep out a mr = .sreturn (.ok true) [] := by
  cases out with
  | resp r =>
    simp only [isSuccessOutcome, Bool.and_eq_true, Bool.not_eq_true',
      decide_eq_true_eq] at h
    obtain ⟨hb, hbody⟩ := h
    simp [sendAttemptStep, hb, hbody]
  | timeout => simp [isSuccessOutcome] at h
  | connError => simp [isSuccessOutcome] at h
  | reqError => simp [isSuccessOutcome] at h

/-- Only a successful outcome makes the iteration body return
`True`. -/
theorem success_of_step (out : AttemptOutcome) (a : Nat) (mr : Int)
    (s : List SleepEvent)
    (h : sendAttemptStep out a mr = .sreturn (.ok true) s) :
    isSuccessOutcome out = true := by
  cases out with
  | resp r =>
    by_cases hb : raisesForStatus r.status = true
    · exfalso
      simp only [sendAttemptStep, hb, if_true] at h
      cases hh : handleHttpError r.status r.retryAfter a mr with
      | ret b => rw [hh] at h; cases b <;> simp at h
      | rateLimited sec => rw [hh] at h; simp at h
      | valueError => rw [hh] at h; simp at h
    · have hb' : raisesForStatus r.status = false := by simpa using hb
      cases hbody : r.body with
      | okField b =>
        cases b
        · simp [sendAttemptStep, hb', hbody] at h
        · simp [isSuccessOutcome, hb', hbody]
      | invalidJson => simp [sendAttemptStep, hb', hbody] at h
  | timeout => simp [sendAttemptStep] at h
  | connError => simp [sendAttemptStep] at h
  | reqError => simp [sendAttemptStep] at h

/-- `_handle_http_error` raises `ValueError` only for a 429 with a
malformed `Retry-After` header. -/
theorem handle_valueError (status : Nat) (ra : Option RAHdr) (a : Nat)
    (mr : Int) (h : handleHttpError status ra a mr = .valueError) :
    status = 429 ∧ ra = some RAHdr.malformed := by
  unfold handleHttpError at h
  split_ifs at h with h1
  cases ra with
  | none => simp at h
  | some x =>
    cases x with
    | num n => simp at h
    | malformed => exact ⟨h1, rfl⟩

/-- An outcome that is not a 429 with a malformed `Retry-After` never
makes the iteration body raise. -/
theorem step_not_uncaught (out : AttemptOutcome) (a : Nat) (mr : Int)
    (s : List SleepEvent) (h : isMalformed429 out = false) :
    sendAttemptStep out a mr ≠ .sreturn .uncaught s := by
  cases out with
  | resp r =>
    intro hstep
    by_cases hb : raisesForStatus r.status = true
    · simp only [sendAttemptStep, hb, if_true] at hstep
      cases hh : handleHttpError r.status r.retryAfter a mr with
      | ret b => rw [hh] at hstep; cases b <;> simp at hstep
      | rateLimited sec => rw [hh] at hstep; simp at hstep
      | valueError =>
        obtain ⟨h429, hmal⟩ := handle_valueError _ _ _ _ hh
        simp [isMalformed429, h429, hmal] at h
    · have hb' : raisesForStatus r.status = false := by simpa using hb
      cases hbody : r.body with
      | okField b => cases b <;> simp [sendAttemptStep, hb', hbody] at hstep
      | invalidJson => simp [sendAttemptStep, hb', hbody] at hstep
  | timeout => simp [sendAttemptStep]
  | connError => simp [sendAttemptStep]
  | reqError => simp [sendAttemptStep]

/-- If no attempt in the window is a 429 with a malformed `Retry-After`
header, the loop produces a boolean. -/
theorem sendFrom_no_uncaught (outcomes : Nat → AttemptOutcome)
    (mr : Int) :
    ∀ fuel attempt,
      (∀ k, attempt ≤ k → k < attempt + fuel →
        isMalformed429 (outcomes k) = false) →
      ∃ b, (sendMessageFrom outcomes mr attempt fuel).1 =
        SendResult.ok b := by
  intro fuel
  induction fuel with
  | zero => exact fun attempt _ => ⟨false, rfl⟩
  | succ f ih =>
    intro attempt h
    have hstep := h attempt (le_refl _) (by omega)
    cases hs : sendAttemptStep (outcomes attempt) attempt mr with
    | sreturn r s =>
      cases r with
      | ok b => exact ⟨b, by simp [sendMessageFrom, hs]⟩
      | uncaught => exact absurd hs (step_not_uncaught _ _ _ _ hstep)
    | scont s =>
      obtain ⟨b, hb⟩ := ih (attempt + 1)
        (fun k hk1 hk2 => h k (by omega) (by omega))
      exact ⟨b, by simp [sendMessageFrom, hs, hb]⟩

/-- If the loop returned `True`, some attempt in the window was a
successful outcome. -/
theorem sendFrom_ok_true (outcomes : Nat → AttemptOutcome) (mr : Int) :
    ∀ fuel attempt,
      (sendMessageFrom outcomes mr attempt fuel).1 = SendResult.ok true →
      ∃ k, attempt ≤ k ∧ k < attempt + fuel ∧
        isSuccessOutcome (outcomes k) = true := by
  intro fuel
  induction fuel with
  | zero => intro attempt h; simp [sendMessageFrom] at h
  | succ f ih =>
    intro attempt h
    cases hs : sendAttemptStep (outcomes attempt) attempt mr with
    | sreturn r s =>
      have hr : r = SendResult.ok true := by
        simpa [sendMessageFrom, hs] using h
      subst hr
      exact ⟨attempt, le_refl _, by omega, success_of_step _ _ _ _ hs⟩
    | scont s =>
      have h' : (sendMessageFrom outcomes mr (attempt + 1) f).1 =
          SendResult.ok true := by
        simpa [sendMessageFrom, hs] using h
      obtain ⟨k, hk1, hk2, hk3⟩ := ih (attempt + 1) h'
      exact ⟨k, by omega, by omega, hk3⟩

/-- If the first `k` attempts fall through and attempt `k` is a
successful outcome still inside the window, the loop returns `True`
right there, after exactly `k + 1` requests. -/
theorem sendFrom_first_success (outcomes : Nat → AttemptOutcome)
    (mr : Int) :
    ∀ fuel k attempt, k < fuel →
      isSuccessOutcome (outcomes (attempt + k)) = true →
      (∀ j, j < k → ∃ s, sendAttemptStep (outcomes (attempt + j))
        (attempt + j) mr = .scont s) →
      (sendMessageFrom outcomes mr attempt fuel).1 = SendResult.ok true ∧
      (sendMessageFrom outcomes mr attempt fuel).2.2 = k + 1 := by
  intro fuel
  induction fuel with
  | zero => intro k attempt hk; omega
  | succ f ih =>
    intro k attempt hk hsucc hcont
    cases k with
    | zero =>
      have hstep := step_of_success (outcomes (attempt + 0)) attempt mr hsucc
      have hstep' : sendAttemptStep (outcomes attempt) attempt mr =
          .sreturn (.ok true) [] := by simpa using hstep
      constructor <;> simp [sendMessageFrom, hstep']
    | succ k' =>
      obtain ⟨s, hs⟩ := hcont 0 (by omega)
      have hs' : sendAttemptStep (outcomes attempt) attempt mr =
          .scont s := by simpa using hs
      have hsucc' : isSuccessOutcome (outcomes ((attempt + 1) + k')) =
          true := by
        have he : (attempt + 1) + k' = attempt + (k' + 1) := by omega
        rw [he]; exact hsucc
      have hcont' : ∀ j, j < k' →
          ∃ s2, sendAttemptStep (outcomes ((attempt + 1) + j))
            ((attempt + 1) + j) mr = .scont s2 := by
        intro j hj
        have he : (attempt + 1) + j = attempt + (j + 1) := by omega
        rw [he]; exact hcont (j + 1) (by omega)
      obtain ⟨h1, h2⟩ := ih k' (attempt + 1) (by omega) hsucc' hcont'
      constructor <;> simp [sendMessageFrom, hs', h1, h2]

/-- C1 counterexample: with `max_retries = 2` and both attempts rate
limited (no `Retry-After` header), the call performs a backoff sleep of
1 second in addition to the two 5-second rate-limit waits, and returns
`False` with the budget exhausted after exactly 2 requests — so a 429
attempt does consume a backoff sleep and does count toward the
`max_retries` budget. -/
theorem c1_rate_limit_counterexample :
    sendMessage c1Outcomes 2 =
      (SendResult.ok false,
       [SleepEvent.rateLimit 5, SleepEvent.backoff 1,
        SleepEvent.rateLimit 5], 2) := rfl

/-- C1 amended: an attempt that receives a 429 with an absent or
integer `Retry-After` header sleeps exactly the hint (5 seconds when
absent) and falls through to a retry, but it is still followed by the
normal backoff sleep of `_wait_before_retry` and still consumes one
iteration of the `range(max_retries)` budget. -/
theorem c1_rate_limit_behavior (outcomes : Nat → AttemptOutcome)
    (maxRetries : Int) (attempt fuel : Nat) (r : HttpResponse) (s : Nat)
    (hout : outcomes attempt = .resp r) (hst : r.status = 429)
    (hra : (r.retryAfter = none ∧ s = 5) ∨
      r.retryAfter = some (RAHdr.num s)) :
    sendMessageFrom outcomes maxRetries attempt (fuel + 1) =
      ((sendMessageFrom outcomes maxRetries (attempt + 1) fuel).1,
       SleepEvent.rateLimit s ::
         (backoffSleeps attempt maxRetries ++
           (sendMessageFrom outcomes maxRetries (attempt + 1) fuel).2.1),
       (sendMessageFrom outcomes maxRetries (attempt + 1) fuel).2.2 + 1)
    := by
  have hstep : sendAttemptStep (outcomes attempt) attempt maxRetries =
      .scont [.rateLimit s] := by
    rcases hra with ⟨h1, h2⟩ | h1
    · subst h2
      simp [sendAttemptStep, hout, hst, handleHttpError, h1,
        show raisesForStatus 429 = true from rfl]
    · simp [sendAttemptStep, hout, hst, handleHttpError, h1,
        show raisesForStatus 429 = true from rfl]
  simp [sendMessageFrom, hstep]

/-- C1 witness: the first of two all-429 attempts. -/
theorem c1_rate_limit_behavior_witness :
    sendMessageFrom c1Outcomes 2 0 (1 + 1) =
      ((sendMessageFrom c1Outcomes 2 1 1).1,
       SleepEvent.rateLimit 5 ::
         (backoffSleeps 0 2 ++ (sendMessageFrom c1Outcomes 2 1 1).2.1),
       (sendMessageFrom c1Outcomes 2 1 1).2.2 + 1) :=
  c1_rate_limit_behavior c1Outcomes 2 0 1 ⟨429, none, .okField false⟩ 5
    rfl rfl (Or.inl ⟨rfl, rfl⟩)

/-- C2 counterexample: a 429 response whose `Retry-After` header is not
a non-negative integer string makes `int(retry_after)` raise
`ValueError`, which escapes `send_message` instead of being converted
into a boolean. -/
theorem c2_absorbs_counterexample :
    sendMessage c2Outcomes 1 = (SendResult.uncaught, [], 1) := rfl

/-- C2 amended: as long as no attempt receives a 429 whose
`Retry-After` header is malformed, every failure (timeout, connection
error, HTTP error status, invalid JSON body, other request exception)
is absorbed and `send_message` returns a boolean. -/
theorem c2_absorbs_failures (outcomes : Nat → AttemptOutcome)
    (maxRetries : Int)
    (h : ∀ k, k < maxRetries.toNat → isMalformed429 (outcomes k) = false) :
    ∃ b, (sendMessage outcomes maxRetries).1 = SendResult.ok b :=
  sendFrom_no_uncaught outcomes maxRetries maxRetries.toNat 0
    (fun k _ hk2 => h k (by omega))

/-- C2 witness: three timed-out attempts yield a boolean. -/
theorem c2_absorbs_failures_witness :
    ∃ b, (sendMessage timeoutOutcomes 3).1 = SendResult.ok b :=
  c2_absorbs_failures timeoutOutcomes 3 (fun _ _ => rfl)

/-- C3 counterexample: a single attempt answered with HTTP 300 (which
`raise_for_status` does not raise on) and a truthy `ok` body makes
`send_message` return `True`, although no attempt received a 2xx
response with `ok` true. -/
theorem c3_success_iff_counterexample :
    sendMessage c3Outcomes 1 = (SendResult.ok true, [], 1) ∧
    is2xxOk (c3Outcomes 0) = false :=
  ⟨rfl, rfl⟩

/-- C3 amended: `send_message` returns `True` only if some attempt
within the budget received a response whose status `raise_for_status`
does not raise on (outside 400-599) with a truthy `ok` field; and
whenever the attempts before `k` all fall through and attempt `k` is
such a response, the call returns `True` immediately after exactly
`k + 1` requests. -/
theorem c3_success_iff (outcomes : Nat → AttemptOutcome)
    (maxRetries : Int) :
    ((sendMessage outcomes maxRetries).1 = SendResult.ok true →
      ∃ k, k < maxRetries.toNat ∧ isSuccessOutcome (outcomes k) = true) ∧
    (∀ k, k < maxRetries.toNat → isSuccessOutcome (outcomes k) = true →
      (∀ j, j < k →
        ∃ s, sendAttemptStep (outcomes j) j maxRetries = .scont s) →
      (sendMessage outcomes maxRetries).1 = SendResult.ok true ∧
      (sendMessage outcomes maxRetries).2.2 = k + 1) := by
  constructor
  · intro h
    obtain ⟨k, _, hk2, hk3⟩ :=
      sendFrom_ok_true outcomes maxRetries maxRetries.toNat 0 h
    exact ⟨k, by omega, hk3⟩
  · intro k hk hsucc hcont
    exact sendFrom_first_success outcomes maxRetries maxRetries.toNat k 0
      hk (by simpa using hsucc) (by intro j hj; simpa using hcont j hj)

/-- C3 witness: a first-attempt success returns `True` in one
request. -/
theorem c3_success_iff_witness :
    (sendMessage c3Outcomes 1).1 = SendResult.ok true ∧
    (sendMessage c3Outcomes 1).2.2 = 0 + 1 :=
  (c3_success_iff c3Outcomes 1).2 0 (by decide) (by decide)
    (fun j hj => absurd hj (Nat.not_lt_zero j))

/-!
Minimum-fold lemmas for `scheduleNextRun`.
-/

/-- A `Nat.min` fold never exceeds its initial accumulator. -/
theorem foldl_min_le_init (l : List Nat) : ∀ a : Nat,
    l.foldl Nat.min a ≤ a := by
  induction l with
  | nil => intro a; exact le_refl a
  | cons y ys ih =>
    intro a
    exact le_trans (ih (Nat.min a y)) (Nat.min_le_left a y)

/-- A `Nat.min` fold never exceeds any list element. -/
theorem foldl_min_le_mem (l : List Nat) : ∀ (a x : Nat), x ∈ l →
    l.foldl Nat.min a ≤ x := by
  induction l with
  | nil => intro a x hx; exact absurd hx (List.not_mem_nil x)
  | cons y ys ih =>
    intro a x hx
    rcases List.mem_cons.mp hx with h | h
    · subst h
      exact le_trans (foldl_min_le_init ys (Nat.min a x))
        (Nat.min_le_right a x)
    · exact ih (Nat.min a y) x h

/-- A `Nat.min` fold equals its initial accumulator or some list
element. -/
theorem foldl_min_mem (l : List Nat) : ∀ a : Nat,
    l.foldl Nat.min a = a ∨ l.foldl Nat.min a ∈ l := by
  induction l with
  | nil => intro a; exact Or.inl rfl
  | cons y ys ih =>
    intro a
    have hfold : (y :: ys).foldl Nat.min a =
        ys.foldl Nat.min (Nat.min a y) := rfl
    rcases ih (Nat.min a y) with h | h
    · rcases Nat.le_total a y with hay | hya
      · refine Or.inl ?_
        rw [hfold, h]
        simp [Nat.min_def, hay]
      · refine Or.inr ?_
        rw [hfold, h]
        have hmin : Nat.min a y = y := by
          simp [Nat.min_def]
          omega
        rw [hmin]
        exact List.mem_cons_self y ys
    · exact Or.inr (by rw [hfold]; exact List.mem_cons_of_mem y h)

/-- C8: `get_next_reminder` returns the sentinel string exactly on an
empty job table, and on a non-empty table describes the soonest
next-fire instant across all jobs. -/
theorem c8_next_reminder :
    getNextReminder [] = "No reminders scheduled" ∧
    ∀ jobs : List SchedJob, jobs ≠ [] →
      ∃ t, scheduleNextRun jobs = some t ∧
        (∀ j ∈ jobs, t ≤ j.nextRun) ∧
        (∃ j ∈ jobs, j.nextRun = t) ∧
        getNextReminder jobs = "Next reminder at " ++ formatHM t := by
  refine ⟨rfl, ?_⟩
  intro jobs hne
  cases jobs with
  | nil => exact absurd rfl hne
  | cons j js =>
    refine ⟨(js.map SchedJob.nextRun).foldl Nat.min j.nextRun, rfl,
      ?_, ?_, rfl⟩
    · intro x hx
      rcases List.mem_cons.mp hx with h | h
      · rw [h]
        exact foldl_min_le_init _ _
      · exact foldl_min_le_mem _ _ _
          (List.mem_map_of_mem (fun x => x.nextRun) h)
    · rcases foldl_min_mem (js.map fun x => x.nextRun) j.nextRun with
        h | h
      · exact ⟨j, List.mem_cons_self _ _, h.symm⟩
      · obtain ⟨x, hx, hxe⟩ := List.mem_map.mp h
        exact ⟨x, List.mem_cons_of_mem _ hx, hxe⟩

/-- C8 witness: a one-job table names that job's next-fire time. -/
theorem c8_next_reminder_witness :
    ∃ t, scheduleNextRun [sampleJob] = some t ∧
      (∀ j ∈ [sampleJob], t ≤ j.nextRun) ∧
      (∃ j ∈ [sampleJob], j.nextRun = t) ∧
      getNextReminder [sampleJob] = "Next reminder at " ++ formatHM t :=
  c8_next_reminder.2 [sampleJob] (by simp)

end WaterRemind
